import Mathlib

/-!
Verification of the extraction-with-cache layer of the PlanNatureza
repository.

The development shallowly embeds `processamento/extracao.py` together with
the connection factory `database.py` (`get_conexao`) that it consumes.
Source functions are translated one-to-one:

* `obter_dados_brutos`            — the extraction orchestrator, including
  its recursive self-retry after purging a corrupt cache;
* `_buscar_dados_financa_sql_raw` — the Orcado raw fetcher (SQL Server
  FINANCA);  here `buscar_dados_financa_sql_raw`;
* `_buscar_dados_hubdados_sql_raw` — the cost-center structure fetcher,
  here `buscar_dados_hubdados_sql_raw`;
* `_salvar_dados_no_cache` / `_carregar_dados_do_cache` — cache write /
  read helpers, here `salvar_dados_no_cache` / `carregar_dados_do_cache`;
* `get_conexao`                   — the connection factory with its four
  `tipo` branches (sql / olap / sqlite / unknown → ValueError).

External effects (outcomes of `pd.read_sql` against the two upstream
sources, success of opening an OLAP session) are supplied by an `Env`
oracle; the local cache file is the mutable state (`World`).  Every step
of the orchestrator is recorded in an event trace so that properties such
as "each raw fetcher is invoked exactly once" are statable.
-/

namespace PlanNatureza

/-- A scalar cell of a raw tabular result (a pandas DataFrame cell). -/
inductive Value
  | text (s : String)
  | int (i : Int)
  | null
deriving DecidableEq, Repr

/-- A row: a mapping from column name to scalar value. -/
abbrev Row := List (String × Value)

/-- RawDataset: an ordered sequence of rows (a pandas DataFrame). -/
abbrev RawDataset := List Row

/-- Names of the two cached tables, as in `extracao.py`. -/
def TABELA_ORCADO_CACHE : String := "orcado_nacional_raw"

/-- Name of the cost-center structure cache table. -/
def TABELA_CC_CACHE : String := "cc_estrutura_raw"

/-- The physical cache file (`cache_dados.db`): either a well-formed
SQLite file holding named tables, or a corrupted file whose reads fail. -/
inductive CacheFile
  | ok (tables : List (String × RawDataset))
  | corrupt
deriving DecidableEq, Repr

/-- Mutable state visible to the orchestrator: the cache file at
`CONFIG.paths.cache_db`, `none` when the file does not exist. -/
structure World where
  cacheFile : Option CacheFile
deriving DecidableEq, Repr

/-- The `caminho_cache.exists()` check. -/
def cache_exists (w : World) : Bool :=
  w.cacheFile.isSome

/-- Exceptions the embedded code can raise. -/
inductive PyError
  | databaseError (tabela : String)   -- read/write on a corrupt SQLite file
  | noSuchTable (tabela : String)     -- pd.read_sql: the named table is absent
  | queryError (fonte : String)       -- upstream pd.read_sql failure
  | olapOpenError                     -- Pyadomd(...).open() failure
  | valueError (tipo : String)        -- get_conexao: unknown connection tipo
  | fileNotFoundError                 -- Path.unlink() with the file absent
deriving DecidableEq, Repr

/-- The dispatch-relevant part of `DbConfig` (config.py): the `tipo` tag
that `get_conexao` branches on ("sql", "olap", "sqlite", or unknown). -/
structure DbConfig where
  tipo : String
deriving DecidableEq, Repr

/-- A connection handle, as returned by `get_conexao` (database.py):
either a SQLAlchemy `Engine` or an open `Pyadomd` session. -/
inductive Conexao
  | engine
  | pyadomd
deriving DecidableEq, Repr

/-- Embedding of `get_conexao` (database.py).  The "sql" and "sqlite"
branches build an engine with `create_engine`, which does not touch the
target and cannot fail here; the "olap" branch opens a `Pyadomd` session,
whose success is environment-determined (`olapOpenOk`); any other `tipo`
raises `ValueError`. -/
def get_conexao (config : DbConfig) (olapOpenOk : Bool) : Except PyError Conexao :=
  if config.tipo = "sql" then
    .ok .engine
  else if config.tipo = "olap" then
    if olapOpenOk then .ok .pyadomd else .error .olapOpenError
  else if config.tipo = "sqlite" then
    .ok .engine
  else
    .error (.valueError config.tipo)

/-- Environment oracle: the configured connection descriptors
(`CONFIG.conexoes`) and the outcomes of the two upstream
`pd.read_sql` calls, which depend on the external databases. -/
structure Env where
  financaConfig : DbConfig            -- CONFIG.conexoes "FINANCA_SQL"
  hubConfig : DbConfig                -- CONFIG.conexoes "HubDados"
  cacheConfig : DbConfig              -- CONFIG.conexoes "CacheDB"
  olapOpenOk : Bool
  readOrcado : Except PyError RawDataset  -- pd.read_sql(query nacional, engine)
  readCC : Except PyError RawDataset      -- pd.read_sql(query cc, engine)
deriving Repr

/-- Embedding of `_buscar_dados_financa_sql_raw`: load the query script
(external collaborator, assumed present), open a connection to
FINANCA_SQL, run `pd.read_sql`.  The try/except block only logs and then
re-raises the original exception (`raise e`), so it is the identity on
the error. -/
def buscar_dados_financa_sql_raw (env : Env) : Except PyError RawDataset :=
  match get_conexao env.financaConfig env.olapOpenOk with
  | .error e => .error e
  | .ok _ => env.readOrcado

/-- Embedding of `_buscar_dados_hubdados_sql_raw`: load the cc query
script, open a connection to HubDados, run `pd.read_sql`. -/
def buscar_dados_hubdados_sql_raw (env : Env) : Except PyError RawDataset :=
  match get_conexao env.hubConfig env.olapOpenOk with
  | .error e => .error e
  | .ok _ => env.readCC

/-- Table write inside a well-formed cache file: semantics of
`DataFrame.to_sql(nome, engine, if_exists="replace", index=False)` on the
table map — any prior table of the same name is dropped, then the new
content is stored under the name. -/
def write_table (tables : List (String × RawDataset)) (nome : String)
    (df : RawDataset) : List (String × RawDataset) :=
  tables.filter (fun p => p.1 != nome) ++ [(nome, df)]

/-- `DataFrame.to_sql(..., if_exists="replace")` at the file level: an
absent file is created by the SQLite engine on first write; a write into
a corrupt file raises a database error. -/
def to_sql_replace (nome : String) (df : RawDataset) (file : Option CacheFile) :
    Except PyError CacheFile :=
  match file with
  | none => .ok (.ok (write_table [] nome df))
  | some (.ok tables) => .ok (.ok (write_table tables nome df))
  | some .corrupt => .error (.databaseError nome)

/-- Embedding of `_salvar_dados_no_cache`: write the Orcado table, then
the cost-center table, both with replace semantics, reusing the one
engine passed in by the caller. -/
def salvar_dados_no_cache (df_orcado df_cc : RawDataset)
    (file : Option CacheFile) : Except PyError CacheFile :=
  match to_sql_replace TABELA_ORCADO_CACHE df_orcado file with
  | .error e => .error e
  | .ok file1 => to_sql_replace TABELA_CC_CACHE df_cc (some file1)

/-- Embedding of `_carregar_dados_do_cache`: `pd.read_sql(tabela,
engine_cache)` — fails if the file is corrupt or the table is absent,
otherwise returns exactly the stored content. -/
def carregar_dados_do_cache (tabela : String) (file : CacheFile) :
    Except PyError RawDataset :=
  match file with
  | .corrupt => .error (.databaseError tabela)
  | .ok tables =>
    match tables.lookup tabela with
    | some df => .ok df
    | none => .error (.noSuchTable tabela)

/-- Embedding of `caminho_cache.unlink()` (pathlib, default
`missing_ok=False`): deletes the file when present, raises
`FileNotFoundError` when the file does not exist. -/
def unlink (w : World) : Except PyError World :=
  match w.cacheFile with
  | some _ => .ok ⟨none⟩
  | none => .error .fileNotFoundError

/-- Observable steps of one orchestrator invocation. -/
inductive Event
  | fetchOrcado                -- _buscar_dados_financa_sql_raw invoked
  | fetchCC                    -- _buscar_dados_hubdados_sql_raw invoked
  | openCacheConn              -- get_conexao(CONFIG.conexoes["CacheDB"])
  | readTable (tabela : String)
  | writeTable (tabela : String)
  | unlinkCache                -- caminho_cache.unlink()
deriving DecidableEq, Repr

/-- Result of one orchestrator invocation: the returned pair (or the
propagated exception), the final state of the cache file, and the trace
of observable steps. -/
structure Outcome where
  result : Except PyError (RawDataset × RawDataset)
  world : World
  events : List Event
deriving Repr

/-- Embedding of the orchestrator `obter_dados_brutos`.  Cache absent:
fetch both datasets live, open one cache connection, save both tables,
return the fetched pair.  Cache present: open one cache connection
(inside the try block), read both tables with it; on any exception, log,
`unlink` the cache file and recursively call itself; the recursion
terminates because the retry sees no cache file. -/
def obter_dados_brutos (env : Env) (w : World) : Outcome :=
  match hw : w.cacheFile with
  | none =>
    match buscar_dados_financa_sql_raw env with
    | .error e => ⟨.error e, w, [.fetchOrcado]⟩
    | .ok df_orcado =>
      match buscar_dados_hubdados_sql_raw env with
      | .error e => ⟨.error e, w, [.fetchOrcado, .fetchCC]⟩
      | .ok df_cc =>
        match get_conexao env.cacheConfig env.olapOpenOk with
        | .error e => ⟨.error e, w, [.fetchOrcado, .fetchCC, .openCacheConn]⟩
        | .ok _ =>
          match salvar_dados_no_cache df_orcado df_cc w.cacheFile with
          | .error e =>
            ⟨.error e, w,
              [.fetchOrcado, .fetchCC, .openCacheConn,
               .writeTable TABELA_ORCADO_CACHE]⟩
          | .ok file2 =>
            ⟨.ok (df_orcado, df_cc), ⟨some file2⟩,
              [.fetchOrcado, .fetchCC, .openCacheConn,
               .writeTable TABELA_ORCADO_CACHE, .writeTable TABELA_CC_CACHE]⟩
  | some file =>
    match get_conexao env.cacheConfig env.olapOpenOk with
    | .error _ =>
      match hu : unlink w with
      | .error e => ⟨.error e, w, [.openCacheConn]⟩
      | .ok w1 =>
        let retry := obter_dados_brutos env w1
        ⟨retry.result, retry.world, [.openCacheConn, .unlinkCache] ++ retry.events⟩
    | .ok _ =>
      match carregar_dados_do_cache TABELA_ORCADO_CACHE file with
      | .error _ =>
        match hu : unlink w with
        | .error e =>
          ⟨.error e, w, [.openCacheConn, .readTable TABELA_ORCADO_CACHE]⟩
        | .ok w1 =>
          let retry := obter_dados_brutos env w1
          ⟨retry.result, retry.world,
            [.openCacheConn, .readTable TABELA_ORCADO_CACHE, .unlinkCache]
              ++ retry.events⟩
      | .ok df_orcado =>
        match carregar_dados_do_cache TABELA_CC_CACHE file with
        | .error _ =>
          match hu : unlink w with
          | .error e =>
            ⟨.error e, w,
              [.openCacheConn, .readTable TABELA_ORCADO_CACHE,
               .readTable TABELA_CC_CACHE]⟩
          | .ok w1 =>
            let retry := obter_dados_brutos env w1
            ⟨retry.result, retry.world,
              [.openCacheConn, .readTable TABELA_ORCADO_CACHE,
               .readTable TABELA_CC_CACHE, .unlinkCache] ++ retry.events⟩
        | .ok df_cc =>
          ⟨.ok (df_orcado, df_cc), w,
            [.openCacheConn, .readTable TABELA_ORCADO_CACHE,
             .readTable TABELA_CC_CACHE]⟩
termination_by match w.cacheFile with | none => 0 | some _ => 1
decreasing_by
all_goals
  simp only [unlink, hw] at hu
  cases hu
  simp [hw]

/-- The try-block of the cache-present path raises an exception: the cache
connection cannot be opened, or reading the first table fails, or the first
read succeeds and reading the second table fails. -/
def cache_read_path_fails (env : Env) (file : CacheFile) : Prop :=
  (∃ e, get_conexao env.cacheConfig env.olapOpenOk = .error e) ∨
  (∃ e, carregar_dados_do_cache TABELA_ORCADO_CACHE file = .error e) ∨
  (∃ t e, carregar_dados_do_cache TABELA_ORCADO_CACHE file = .ok t ∧
          carregar_dados_do_cache TABELA_CC_CACHE file = .error e)

/-- Sample Orcado dataset used to instantiate the theorems. -/
def dOrc : RawDataset := [[("valor", Value.int 100)], [("valor", Value.int 250)]]

/-- Sample cost-center structure dataset used to instantiate the theorems. -/
def dCC : RawDataset := [[("cc", Value.text "SP01")]]

/-- A second Orcado dataset, with different rows than `dOrc`. -/
def dOrc2 : RawDataset := [[("valor", Value.int 7)]]

/-- Environment in which both upstream queries succeed, with the connection
descriptors exactly as configured in config.py (two "sql" sources and the
"sqlite" cache). -/
def envLive : Env := ⟨⟨"sql"⟩, ⟨"sql"⟩, ⟨"sqlite"⟩, true, .ok dOrc, .ok dCC⟩

/-- Environment in which the FINANCA query fails. -/
def envFalhaOrcado : Env :=
  ⟨⟨"sql"⟩, ⟨"sql"⟩, ⟨"sqlite"⟩, true, .error (.queryError "FINANCA"), .ok dCC⟩

/-- Environment in which the FINANCA query succeeds but the HubDados query
fails. -/
def envFalhaCC : Env :=
  ⟨⟨"sql"⟩, ⟨"sql"⟩, ⟨"sqlite"⟩, true, .ok dOrc, .error (.queryError "HubDados")⟩

/-- Environment whose cache connection descriptor carries an unknown `tipo`,
so that `get_conexao` itself raises `ValueError`. -/
def envConfigRuim : Env := ⟨⟨"sql"⟩, ⟨"sql"⟩, ⟨"txt"⟩, true, .ok dOrc, .ok dCC⟩

/-- A well-formed cache file content holding both tables. -/
def tsBom : List (String × RawDataset) :=
  [(TABELA_ORCADO_CACHE, dOrc), (TABELA_CC_CACHE, dCC)]

lemma lookup_cons_ne {β : Type} (a k : String) (v : β) (l : List (String × β))
    (h : a ≠ k) : List.lookup a ((k, v) :: l) = List.lookup a l := by
  simp [List.lookup, beq_eq_false_iff_ne.mpr h]

lemma lookup_cons_self {β : Type} (k : String) (v : β) (l : List (String × β)) :
    List.lookup k ((k, v) :: l) = some v := by
  simp [List.lookup]

lemma lookup_write_table (ts : List (String × RawDataset)) (nome : String)
    (df : RawDataset) : (write_table ts nome df).lookup nome = some df := by
  induction ts with
  | nil => simp [write_table, lookup_cons_self]
  | cons p ts ih =>
    obtain ⟨k, v⟩ := p
    by_cases h : k = nome
    · subst h
      simp only [write_table, List.filter_cons] at ih ⊢
      simpa using ih
    · simp only [write_table, List.filter_cons] at ih ⊢
      rw [if_pos (by simpa using h), List.cons_append,
        lookup_cons_ne _ _ _ _ (Ne.symm h)]
      exact ih

lemma carregar_ok_elim (tabela : String) (file : CacheFile) (df : RawDataset)
    (h : carregar_dados_do_cache tabela file = .ok df) :
    ∃ ts, file = .ok ts ∧ ts.lookup tabela = some df := by
  cases file with
  | corrupt => simp [carregar_dados_do_cache] at h
  | ok ts =>
    refine ⟨ts, rfl, ?_⟩
    cases hl : ts.lookup tabela with
    | none => simp [carregar_dados_do_cache, hl] at h
    | some d => simpa [carregar_dados_do_cache, hl] using h

lemma cold_ok (env : Env) (d1 d2 : RawDataset)
    (hf : env.financaConfig.tipo = "sql") (hh : env.hubConfig.tipo = "sql")
    (hc : env.cacheConfig.tipo = "sqlite")
    (h1 : env.readOrcado = .ok d1) (h2 : env.readCC = .ok d2) :
    obter_dados_brutos env ⟨none⟩ =
      ⟨.ok (d1, d2), ⟨some (.ok [(TABELA_ORCADO_CACHE, d1), (TABELA_CC_CACHE, d2)])⟩,
       [.fetchOrcado, .fetchCC, .openCacheConn,
        .writeTable TABELA_ORCADO_CACHE, .writeTable TABELA_CC_CACHE]⟩ := by
  rw [obter_dados_brutos.eq_def]
  simp [buscar_dados_financa_sql_raw, buscar_dados_hubdados_sql_raw, get_conexao,
    hf, hh, hc, h1, h2, salvar_dados_no_cache, to_sql_replace, write_table,
    TABELA_ORCADO_CACHE, TABELA_CC_CACHE]

lemma warm_ok_general (env : Env) (file : CacheFile) (c : Conexao)
    (t1 t2 : RawDataset)
    (hcn : get_conexao env.cacheConfig env.olapOpenOk = .ok c)
    (h1 : carregar_dados_do_cache TABELA_ORCADO_CACHE file = .ok t1)
    (h2 : carregar_dados_do_cache TABELA_CC_CACHE file = .ok t2) :
    obter_dados_brutos env ⟨some file⟩ =
      ⟨.ok (t1, t2), ⟨some file⟩,
       [.openCacheConn, .readTable TABELA_ORCADO_CACHE,
        .readTable TABELA_CC_CACHE]⟩ := by
  rw [obter_dados_brutos.eq_def]
  simp [hcn, h1, h2]

lemma warm_ok (env : Env) (ts : List (String × RawDataset)) (t1 t2 : RawDataset)
    (hc : env.cacheConfig.tipo = "sqlite")
    (h1 : ts.lookup TABELA_ORCADO_CACHE = some t1)
    (h2 : ts.lookup TABELA_CC_CACHE = some t2) :
    obter_dados_brutos env ⟨some (.ok ts)⟩ =
      ⟨.ok (t1, t2), ⟨some (.ok ts)⟩,
       [.openCacheConn, .readTable TABELA_ORCADO_CACHE,
        .readTable TABELA_CC_CACHE]⟩ := by
  rw [obter_dados_brutos.eq_def]
  simp [get_conexao, hc, carregar_dados_do_cache, h1, h2]

lemma cold_fetch1_err (env : Env) (e : PyError)
    (h : buscar_dados_financa_sql_raw env = .error e) :
    obter_dados_brutos env ⟨none⟩ = ⟨.error e, ⟨none⟩, [.fetchOrcado]⟩ := by
  rw [obter_dados_brutos.eq_def]
  simp [h]

lemma cold_fetch2_err (env : Env) (d : RawDataset) (e : PyError)
    (h1 : buscar_dados_financa_sql_raw env = .ok d)
    (h2 : buscar_dados_hubdados_sql_raw env = .error e) :
    obter_dados_brutos env ⟨none⟩ = ⟨.error e, ⟨none⟩, [.fetchOrcado, .fetchCC]⟩ := by
  rw [obter_dados_brutos.eq_def]
  simp [h1, h2]

lemma conn_fail_recovery (env : Env) (file : CacheFile) (e : PyError)
    (hconn : get_conexao env.cacheConfig env.olapOpenOk = .error e) :
    obter_dados_brutos env ⟨some file⟩ =
      ⟨(obter_dados_brutos env ⟨none⟩).result, (obter_dados_brutos env ⟨none⟩).world,
       [.openCacheConn, .unlinkCache] ++ (obter_dados_brutos env ⟨none⟩).events⟩ := by
  conv_lhs => rw [obter_dados_brutos.eq_def]
  simp [hconn, unlink]

lemma read1_fail_recovery (env : Env) (file : CacheFile) (c : Conexao) (e : PyError)
    (hconn : get_conexao env.cacheConfig env.olapOpenOk = .ok c)
    (h1 : carregar_dados_do_cache TABELA_ORCADO_CACHE file = .error e) :
    obter_dados_brutos env ⟨some file⟩ =
      ⟨(obter_dados_brutos env ⟨none⟩).result, (obter_dados_brutos env ⟨none⟩).world,
       [.openCacheConn, .readTable TABELA_ORCADO_CACHE, .unlinkCache]
         ++ (obter_dados_brutos env ⟨none⟩).events⟩ := by
  conv_lhs => rw [obter_dados_brutos.eq_def]
  simp [hconn, h1, unlink]

lemma read2_fail_recovery (env : Env) (file : CacheFile) (c : Conexao)
    (t : RawDataset) (e : PyError)
    (hconn : get_conexao env.cacheConfig env.olapOpenOk = .ok c)
    (h1 : carregar_dados_do_cache TABELA_ORCADO_CACHE file = .ok t)
    (h2 : carregar_dados_do_cache TABELA_CC_CACHE file = .error e) :
    obter_dados_brutos env ⟨some file⟩ =
      ⟨(obter_dados_brutos env ⟨none⟩).result, (obter_dados_brutos env ⟨none⟩).world,
       [.openCacheConn, .readTable TABELA_ORCADO_CACHE, .readTable TABELA_CC_CACHE,
        .unlinkCache] ++ (obter_dados_brutos env ⟨none⟩).events⟩ := by
  conv_lhs => rw [obter_dados_brutos.eq_def]
  simp [hconn, h1, h2, unlink]

lemma cold_no_unlink (env : Env) :
    (obter_dados_brutos env ⟨none⟩).events.count Event.unlinkCache = 0 := by
  rw [obter_dados_brutos.eq_def]
  cases hb : buscar_dados_financa_sql_raw env with
  | error e => simp [hb]
  | ok d1 =>
    cases hh : buscar_dados_hubdados_sql_raw env with
    | error e => simp [hb, hh]
    | ok d2 =>
      cases hc : get_conexao env.cacheConfig env.olapOpenOk with
      | error e => simp [hb, hh, hc]
      | ok c =>
        cases hs : salvar_dados_no_cache d1 d2 none with
        | error e => simp [hb, hh, hc, hs]
        | ok f => simp [hb, hh, hc, hs]

lemma cold_no_read (env : Env) (tabela : String) :
    Event.readTable tabela ∉ (obter_dados_brutos env ⟨none⟩).events := by
  rw [obter_dados_brutos.eq_def]
  cases hb : buscar_dados_financa_sql_raw env with
  | error e => simp [hb]
  | ok d1 =>
    cases hh : buscar_dados_hubdados_sql_raw env with
    | error e => simp [hb, hh]
    | ok d2 =>
      cases hc : get_conexao env.cacheConfig env.olapOpenOk with
      | error e => simp [hb, hh, hc]
      | ok c =>
        cases hs : salvar_dados_no_cache d1 d2 none with
        | error e => simp [hb, hh, hc, hs]
        | ok f => simp [hb, hh, hc, hs]

lemma count_unlink_le_one (env : Env) (w : World) :
    (obter_dados_brutos env w).events.count Event.unlinkCache ≤ 1 := by
  rcases w with ⟨_ | file⟩
  · exact Nat.le_of_eq (cold_no_unlink env) |>.trans (Nat.le_succ 0)
  · rw [obter_dados_brutos.eq_def]
    cases hc : get_conexao env.cacheConfig env.olapOpenOk with
    | error e => simp [hc, unlink, List.count_append, cold_no_unlink env]
    | ok c =>
      cases h1 : carregar_dados_do_cache TABELA_ORCADO_CACHE file with
      | error e => simp [hc, h1, unlink, List.count_append, cold_no_unlink env]
      | ok t1 =>
        cases h2 : carregar_dados_do_cache TABELA_CC_CACHE file with
        | error e => simp [hc, h1, h2, unlink, List.count_append, cold_no_unlink env]
        | ok t2 => simp [hc, h1, h2]

lemma cold_result_ok (env : Env) (a b : RawDataset)
    (h : (obter_dados_brutos env ⟨none⟩).result = .ok (a, b)) :
    buscar_dados_financa_sql_raw env = .ok a ∧
      buscar_dados_hubdados_sql_raw env = .ok b := by
  rw [obter_dados_brutos.eq_def] at h
  cases hb : buscar_dados_financa_sql_raw env with
  | error e => simp [hb] at h
  | ok d1 =>
    cases hh : buscar_dados_hubdados_sql_raw env with
    | error e => simp [hb, hh] at h
    | ok d2 =>
      cases hc : get_conexao env.cacheConfig env.olapOpenOk with
      | error e => simp [hb, hh, hc] at h
      | ok c =>
        cases hs : salvar_dados_no_cache d1 d2 none with
        | error e => simp [hb, hh, hc, hs] at h
        | ok f =>
          simp [hb, hh, hc, hs] at h
          obtain ⟨rfl, rfl⟩ := h
          exact ⟨rfl, rfl⟩

/-- C1: when the cache file exists but reading a cached table fails (either
the first read, or the first succeeds and the second fails), the
orchestrator deletes the cache file exactly once, invokes each raw fetcher
exactly once during the retry, leaves behind a fresh cache containing both
tables with the fetched content, and returns the freshly fetched pair. -/
theorem C1_corruption_recovery (env : Env) (file : CacheFile) (d1 d2 : RawDataset)
    (hf : env.financaConfig.tipo = "sql") (hh : env.hubConfig.tipo = "sql")
    (hc : env.cacheConfig.tipo = "sqlite")
    (h1 : env.readOrcado = .ok d1) (h2 : env.readCC = .ok d2)
    (hfail : (∃ e, carregar_dados_do_cache TABELA_ORCADO_CACHE file = .error e) ∨
             (∃ t e, carregar_dados_do_cache TABELA_ORCADO_CACHE file = .ok t ∧
                     carregar_dados_do_cache TABELA_CC_CACHE file = .error e)) :
    (obter_dados_brutos env ⟨some file⟩).result = .ok (d1, d2) ∧
    (obter_dados_brutos env ⟨some file⟩).world =
      ⟨some (.ok [(TABELA_ORCADO_CACHE, d1), (TABELA_CC_CACHE, d2)])⟩ ∧
    (obter_dados_brutos env ⟨some file⟩).events.count .unlinkCache = 1 ∧
    (obter_dados_brutos env ⟨some file⟩).events.count .fetchOrcado = 1 ∧
    (obter_dados_brutos env ⟨some file⟩).events.count .fetchCC = 1 := by
  have hconn : get_conexao env.cacheConfig env.olapOpenOk = .ok .engine := by
    simp [get_conexao, hc]
  have hcold := cold_ok env d1 d2 hf hh hc h1 h2
  rcases hfail with ⟨e, he⟩ | ⟨t, e, ht, he⟩
  · rw [read1_fail_recovery env file .engine e hconn he, hcold]
    exact ⟨rfl, rfl, rfl, rfl, rfl⟩
  · rw [read2_fail_recovery env file .engine t e hconn ht he, hcold]
    exact ⟨rfl, rfl, rfl, rfl, rfl⟩

/-- Witness for C1: recovery at a concrete corrupt cache file. -/
theorem C1_witness :
    (obter_dados_brutos envLive ⟨some .corrupt⟩).result = .ok (dOrc, dCC) ∧
    (obter_dados_brutos envLive ⟨some .corrupt⟩).world =
      ⟨some (.ok [(TABELA_ORCADO_CACHE, dOrc), (TABELA_CC_CACHE, dCC)])⟩ ∧
    (obter_dados_brutos envLive ⟨some .corrupt⟩).events.count .unlinkCache = 1 ∧
    (obter_dados_brutos envLive ⟨some .corrupt⟩).events.count .fetchOrcado = 1 ∧
    (obter_dados_brutos envLive ⟨some .corrupt⟩).events.count .fetchCC = 1 :=
  C1_corruption_recovery envLive .corrupt dOrc dCC rfl rfl rfl rfl rfl
    (Or.inl ⟨.databaseError TABELA_ORCADO_CACHE, rfl⟩)

/-- C2: at most one recovery retry ever happens — every invocation deletes
the cache file at most once, and when the cache-present try-block fails the
whole invocation is exactly one purge followed by one cache-absent
re-invocation whose outcome (including any failure) is passed through
unchanged. -/
theorem C2_single_retry :
    (∀ env w, (obter_dados_brutos env w).events.count Event.unlinkCache ≤ 1) ∧
    (∀ env file, cache_read_path_fails env file →
       ∃ pre, obter_dados_brutos env ⟨some file⟩ =
           ⟨(obter_dados_brutos env ⟨none⟩).result,
            (obter_dados_brutos env ⟨none⟩).world,
            pre ++ [Event.unlinkCache] ++ (obter_dados_brutos env ⟨none⟩).events⟩ ∧
         Event.unlinkCache ∉ pre) := by
  refine ⟨count_unlink_le_one, ?_⟩
  intro env file hfail
  cases hcn : get_conexao env.cacheConfig env.olapOpenOk with
  | error e =>
    exact ⟨[.openCacheConn], conn_fail_recovery env file e hcn, by simp⟩
  | ok c =>
    cases h1 : carregar_dados_do_cache TABELA_ORCADO_CACHE file with
    | error e =>
      exact ⟨[.openCacheConn, .readTable TABELA_ORCADO_CACHE],
        read1_fail_recovery env file c e hcn h1, by simp⟩
    | ok t1 =>
      cases h2 : carregar_dados_do_cache TABELA_CC_CACHE file with
      | error e =>
        exact ⟨[.openCacheConn, .readTable TABELA_ORCADO_CACHE,
                .readTable TABELA_CC_CACHE],
          read2_fail_recovery env file c t1 e hcn h1 h2, by simp⟩
      | ok t2 =>
        exfalso
        rcases hfail with ⟨e, he⟩ | ⟨e, he⟩ | ⟨t, e, ht, he⟩
        · rw [hcn] at he; cases he
        · rw [h1] at he; cases he
        · rw [h2] at he; cases he

/-- Witness for C2 at a corrupt cache with a failing upstream source: the
retry happens once and its failure is passed through. -/
theorem C2_witness :
    (obter_dados_brutos envFalhaOrcado ⟨some .corrupt⟩).events.count
        Event.unlinkCache ≤ 1 ∧
    (∃ pre, obter_dados_brutos envFalhaOrcado ⟨some .corrupt⟩ =
        ⟨(obter_dados_brutos envFalhaOrcado ⟨none⟩).result,
         (obter_dados_brutos envFalhaOrcado ⟨none⟩).world,
         pre ++ [Event.unlinkCache]
           ++ (obter_dados_brutos envFalhaOrcado ⟨none⟩).events⟩ ∧
      Event.unlinkCache ∉ pre) :=
  ⟨C2_single_retry.1 envFalhaOrcado ⟨some .corrupt⟩,
   C2_single_retry.2 envFalhaOrcado .corrupt
     (Or.inr (Or.inl ⟨.databaseError TABELA_ORCADO_CACHE, rfl⟩))⟩

/-- C3: when the cache file exists and both cached tables read back
successfully, `obter_dados_brutos` returns exactly the cached pair (Orcado
first, cost-center structure second), neither raw fetcher is invoked, and
exactly one cache connection is opened and reused for both reads. -/
theorem C3_warm_read (env : Env) (ts : List (String × RawDataset))
    (t1 t2 : RawDataset) (hc : env.cacheConfig.tipo = "sqlite")
    (h1 : ts.lookup TABELA_ORCADO_CACHE = some t1)
    (h2 : ts.lookup TABELA_CC_CACHE = some t2) :
    obter_dados_brutos env ⟨some (.ok ts)⟩ =
      ⟨.ok (t1, t2), ⟨some (.ok ts)⟩,
       [.openCacheConn, .readTable TABELA_ORCADO_CACHE,
        .readTable TABELA_CC_CACHE]⟩ ∧
    (obter_dados_brutos env ⟨some (.ok ts)⟩).events.count .fetchOrcado = 0 ∧
    (obter_dados_brutos env ⟨some (.ok ts)⟩).events.count .fetchCC = 0 ∧
    (obter_dados_brutos env ⟨some (.ok ts)⟩).events.count .openCacheConn = 1 := by
  have hwm := warm_ok env ts t1 t2 hc h1 h2
  refine ⟨hwm, ?_, ?_, ?_⟩ <;> rw [hwm] <;> rfl

/-- Witness for C3 at a concrete cache content and environment. -/
theorem C3_witness :
    obter_dados_brutos envLive ⟨some (.ok tsBom)⟩ =
      ⟨.ok (dOrc, dCC), ⟨some (.ok tsBom)⟩,
       [.openCacheConn, .readTable TABELA_ORCADO_CACHE,
        .readTable TABELA_CC_CACHE]⟩ ∧
    (obter_dados_brutos envLive ⟨some (.ok tsBom)⟩).events.count .fetchOrcado = 0 ∧
    (obter_dados_brutos envLive ⟨some (.ok tsBom)⟩).events.count .fetchCC = 0 ∧
    (obter_dados_brutos envLive ⟨some (.ok tsBom)⟩).events.count .openCacheConn = 1 :=
  C3_warm_read envLive tsBom dOrc dCC rfl rfl rfl

/-- C4: when the cache file does not exist, each raw fetcher is invoked
exactly once, exactly one cache connection is opened for the two writes,
afterwards the cache file exists and both named tables read back exactly
the fetched content, and the fetched pair is returned. -/
theorem C4_cold_start (env : Env) (d1 d2 : RawDataset)
    (hf : env.financaConfig.tipo = "sql") (hh : env.hubConfig.tipo = "sql")
    (hc : env.cacheConfig.tipo = "sqlite")
    (h1 : env.readOrcado = .ok d1) (h2 : env.readCC = .ok d2) :
    obter_dados_brutos env ⟨none⟩ =
      ⟨.ok (d1, d2),
       ⟨some (.ok [(TABELA_ORCADO_CACHE, d1), (TABELA_CC_CACHE, d2)])⟩,
       [.fetchOrcado, .fetchCC, .openCacheConn,
        .writeTable TABELA_ORCADO_CACHE, .writeTable TABELA_CC_CACHE]⟩ ∧
    cache_exists (obter_dados_brutos env ⟨none⟩).world = true ∧
    carregar_dados_do_cache TABELA_ORCADO_CACHE
      (.ok [(TABELA_ORCADO_CACHE, d1), (TABELA_CC_CACHE, d2)]) = .ok d1 ∧
    carregar_dados_do_cache TABELA_CC_CACHE
      (.ok [(TABELA_ORCADO_CACHE, d1), (TABELA_CC_CACHE, d2)]) = .ok d2 ∧
    (obter_dados_brutos env ⟨none⟩).events.count .fetchOrcado = 1 ∧
    (obter_dados_brutos env ⟨none⟩).events.count .fetchCC = 1 ∧
    (obter_dados_brutos env ⟨none⟩).events.count .openCacheConn = 1 := by
  have hcold := cold_ok env d1 d2 hf hh hc h1 h2
  refine ⟨hcold, ?_, ?_, ?_, ?_, ?_, ?_⟩
  · rw [hcold]
    rfl
  · simp [carregar_dados_do_cache, lookup_cons_self]
  · simp [carregar_dados_do_cache, TABELA_ORCADO_CACHE, TABELA_CC_CACHE,
      lookup_cons_ne, lookup_cons_self]
  · rw [hcold]
    rfl
  · rw [hcold]
    rfl
  · rw [hcold]
    rfl

/-- Witness for C4 at a concrete environment with both queries succeeding. -/
theorem C4_witness :
    obter_dados_brutos envLive ⟨none⟩ =
      ⟨.ok (dOrc, dCC),
       ⟨some (.ok [(TABELA_ORCADO_CACHE, dOrc), (TABELA_CC_CACHE, dCC)])⟩,
       [.fetchOrcado, .fetchCC, .openCacheConn,
        .writeTable TABELA_ORCADO_CACHE, .writeTable TABELA_CC_CACHE]⟩ ∧
    cache_exists (obter_dados_brutos envLive ⟨none⟩).world = true ∧
    carregar_dados_do_cache TABELA_ORCADO_CACHE
      (.ok [(TABELA_ORCADO_CACHE, dOrc), (TABELA_CC_CACHE, dCC)]) = .ok dOrc ∧
    carregar_dados_do_cache TABELA_CC_CACHE
      (.ok [(TABELA_ORCADO_CACHE, dOrc), (TABELA_CC_CACHE, dCC)]) = .ok dCC ∧
    (obter_dados_brutos envLive ⟨none⟩).events.count .fetchOrcado = 1 ∧
    (obter_dados_brutos envLive ⟨none⟩).events.count .fetchCC = 1 ∧
    (obter_dados_brutos envLive ⟨none⟩).events.count .openCacheConn = 1 :=
  C4_cold_start envLive dOrc dCC rfl rfl rfl rfl rfl

/-- C5 counterexample: the purge is `Path.unlink()` with the default
`missing_ok=False`, so calling it while the backing file does not exist
raises `FileNotFoundError` — it does fail, refuting the claim as stated. -/
theorem C5_counterexample :
    unlink ⟨none⟩ = .error .fileNotFoundError := rfl

/-- C5 amended: purge succeeds whenever the backing file exists — the only
state in which the orchestrator invokes it — and afterwards the existence
check returns false; when the backing file does not exist, purge raises
`FileNotFoundError` instead of succeeding. -/
theorem C5_amended_purge (w : World) :
    (∀ file, w.cacheFile = some file →
       ∃ w', unlink w = .ok w' ∧ cache_exists w' = false) ∧
    (w.cacheFile = none → unlink w = .error .fileNotFoundError) := by
  constructor
  · intro file h
    refine ⟨⟨none⟩, ?_, rfl⟩
    simp [unlink, h]
  · intro h
    simp [unlink, h]

/-- Witness for the amended C5 at concrete worlds. -/
theorem C5_witness :
    (∃ w', unlink ⟨some .corrupt⟩ = .ok w' ∧ cache_exists w' = false) ∧
    unlink ⟨none⟩ = .error .fileNotFoundError :=
  ⟨(C5_amended_purge ⟨some .corrupt⟩).1 .corrupt rfl,
   (C5_amended_purge ⟨none⟩).2 rfl⟩

/-- C6: writing a table a second time fully replaces the first write — a
subsequent read of that name returns exactly the second dataset, with no
residual rows from the first write. -/
theorem C6_overwrite (ts : List (String × RawDataset)) (nome : String)
    (d1 d2 : RawDataset) :
    carregar_dados_do_cache nome
      (.ok (write_table (write_table ts nome d1) nome d2)) = .ok d2 := by
  simp [carregar_dados_do_cache, lookup_write_table]

/-- C7: a successful result is never of mixed provenance — either both
returned datasets are the upstream fetch results, or both are the cached
tables of the input world. -/
theorem C7_no_mixed_provenance (env : Env) (w : World) (a b : RawDataset)
    (h : (obter_dados_brutos env w).result = .ok (a, b)) :
    (buscar_dados_financa_sql_raw env = .ok a ∧
       buscar_dados_hubdados_sql_raw env = .ok b) ∨
    (∃ ts, w.cacheFile = some (.ok ts) ∧
       ts.lookup TABELA_ORCADO_CACHE = some a ∧
       ts.lookup TABELA_CC_CACHE = some b) := by
  rcases w with ⟨_ | file⟩
  · exact Or.inl (cold_result_ok env a b h)
  · cases hcn : get_conexao env.cacheConfig env.olapOpenOk with
    | error e =>
      rw [conn_fail_recovery env file e hcn] at h
      exact Or.inl (cold_result_ok env a b h)
    | ok c =>
      cases h1 : carregar_dados_do_cache TABELA_ORCADO_CACHE file with
      | error e =>
        rw [read1_fail_recovery env file c e hcn h1] at h
        exact Or.inl (cold_result_ok env a b h)
      | ok t1 =>
        cases h2 : carregar_dados_do_cache TABELA_CC_CACHE file with
        | error e =>
          rw [read2_fail_recovery env file c t1 e hcn h1 h2] at h
          exact Or.inl (cold_result_ok env a b h)
        | ok t2 =>
          rw [warm_ok_general env file c t1 t2 hcn h1 h2] at h
          simp at h
          obtain ⟨rfl, rfl⟩ := h
          obtain ⟨ts, rfl, hl1⟩ := carregar_ok_elim _ _ _ h1
          obtain ⟨ts2, hts2, hl2⟩ := carregar_ok_elim _ _ _ h2
          obtain rfl : ts = ts2 := by injection hts2
          exact Or.inr ⟨ts, rfl, hl1, hl2⟩

/-- Witness for C7 at a warm cache: the pair comes from the cached tables. -/
theorem C7_witness :
    (buscar_dados_financa_sql_raw envLive = .ok dOrc ∧
       buscar_dados_hubdados_sql_raw envLive = .ok dCC) ∨
    (∃ ts, (⟨some (.ok tsBom)⟩ : World).cacheFile = some (.ok ts) ∧
       ts.lookup TABELA_ORCADO_CACHE = some dOrc ∧
       ts.lookup TABELA_CC_CACHE = some dCC) :=
  C7_no_mixed_provenance envLive ⟨some (.ok tsBom)⟩ dOrc dCC
    (by rw [warm_ok envLive tsBom dOrc dCC rfl rfl rfl])

/-- C8: whenever a raw fetcher is actually invoked and fails, its error is
the result of the whole invocation — fetch failures propagate uncaught with
no retry and no partial result. -/
theorem C8_fetch_failure_fatal (env : Env) (w : World) :
    (∀ e, buscar_dados_financa_sql_raw env = .error e →
       Event.fetchOrcado ∈ (obter_dados_brutos env w).events →
       (obter_dados_brutos env w).result = .error e) ∧
    (∀ d e, buscar_dados_financa_sql_raw env = .ok d →
       buscar_dados_hubdados_sql_raw env = .error e →
       Event.fetchCC ∈ (obter_dados_brutos env w).events →
       (obter_dados_brutos env w).result = .error e) := by
  constructor
  · intro e he hmem
    rcases w with ⟨_ | file⟩
    · rw [cold_fetch1_err env e he]
    · cases hcn : get_conexao env.cacheConfig env.olapOpenOk with
      | error e1 =>
        rw [conn_fail_recovery env file e1 hcn, cold_fetch1_err env e he]
      | ok c =>
        cases h1 : carregar_dados_do_cache TABELA_ORCADO_CACHE file with
        | error e1 =>
          rw [read1_fail_recovery env file c e1 hcn h1, cold_fetch1_err env e he]
        | ok t1 =>
          cases h2 : carregar_dados_do_cache TABELA_CC_CACHE file with
          | error e2 =>
            rw [read2_fail_recovery env file c t1 e2 hcn h1 h2,
              cold_fetch1_err env e he]
          | ok t2 =>
            rw [warm_ok_general env file c t1 t2 hcn h1 h2] at hmem
            simp at hmem
  · intro d e hd he hmem
    rcases w with ⟨_ | file⟩
    · rw [cold_fetch2_err env d e hd he]
    · cases hcn : get_conexao env.cacheConfig env.olapOpenOk with
      | error e1 =>
        rw [conn_fail_recovery env file e1 hcn, cold_fetch2_err env d e hd he]
      | ok c =>
        cases h1 : carregar_dados_do_cache TABELA_ORCADO_CACHE file with
        | error e1 =>
          rw [read1_fail_recovery env file c e1 hcn h1,
            cold_fetch2_err env d e hd he]
        | ok t1 =>
          cases h2 : carregar_dados_do_cache TABELA_CC_CACHE file with
          | error e2 =>
            rw [read2_fail_recovery env file c t1 e2 hcn h1 h2,
              cold_fetch2_err env d e hd he]
          | ok t2 =>
            rw [warm_ok_general env file c t1 t2 hcn h1 h2] at hmem
            simp at hmem

/-- Witness for C8: each fetcher failing at a concrete cold start. -/
theorem C8_witness :
    (obter_dados_brutos envFalhaOrcado ⟨none⟩).result =
      .error (.queryError "FINANCA") ∧
    (obter_dados_brutos envFalhaCC ⟨none⟩).result =
      .error (.queryError "HubDados") :=
  ⟨(C8_fetch_failure_fatal envFalhaOrcado ⟨none⟩).1 (.queryError "FINANCA") rfl
     (by rw [cold_fetch1_err envFalhaOrcado (.queryError "FINANCA") rfl]; simp),
   (C8_fetch_failure_fatal envFalhaCC ⟨none⟩).2 dOrc (.queryError "HubDados")
     rfl rfl
     (by rw [cold_fetch2_err envFalhaCC dOrc (.queryError "HubDados") rfl rfl]
         simp)⟩

/-- C9: in the cache-absent path, both fetches complete before the cache
connection is opened or any table written, so a fetch failure leaves the
cache state unchanged and creates no cache file. -/
theorem C9_fetch_before_cache_write (env : Env) :
    (∀ e, buscar_dados_financa_sql_raw env = .error e →
       obter_dados_brutos env ⟨none⟩ = ⟨.error e, ⟨none⟩, [.fetchOrcado]⟩) ∧
    (∀ d e, buscar_dados_financa_sql_raw env = .ok d →
       buscar_dados_hubdados_sql_raw env = .error e →
       obter_dados_brutos env ⟨none⟩ =
         ⟨.error e, ⟨none⟩, [.fetchOrcado, .fetchCC]⟩) ∧
    (Event.openCacheConn ∈ (obter_dados_brutos env ⟨none⟩).events →
       (obter_dados_brutos env ⟨none⟩).events.take 2 =
         [.fetchOrcado, .fetchCC]) ∧
    (∀ t, Event.writeTable t ∈ (obter_dados_brutos env ⟨none⟩).events →
       (obter_dados_brutos env ⟨none⟩).events.take 3 =
         [.fetchOrcado, .fetchCC, .openCacheConn]) := by
  refine ⟨fun e he => cold_fetch1_err env e he,
    fun d e hd he => cold_fetch2_err env d e hd he, ?_, ?_⟩
  · rw [obter_dados_brutos.eq_def]
    cases hb : buscar_dados_financa_sql_raw env with
    | error e => simp [hb]
    | ok d1 =>
      cases hh : buscar_dados_hubdados_sql_raw env with
      | error e => simp [hb, hh]
      | ok d2 =>
        cases hcn : get_conexao env.cacheConfig env.olapOpenOk with
        | error e => intro _; rfl
        | ok c =>
          cases hs : salvar_dados_no_cache d1 d2 none with
          | error e => intro _; rfl
          | ok f => intro _; rfl
  · intro t
    rw [obter_dados_brutos.eq_def]
    cases hb : buscar_dados_financa_sql_raw env with
    | error e => simp [hb]
    | ok d1 =>
      cases hh : buscar_dados_hubdados_sql_raw env with
      | error e => simp [hb, hh]
      | ok d2 =>
        cases hcn : get_conexao env.cacheConfig env.olapOpenOk with
        | error e => simp [hb, hh, hcn]
        | ok c =>
          cases hs : salvar_dados_no_cache d1 d2 none with
          | error e => intro _; rfl
          | ok f => intro _; rfl

/-- Witness for C9 at concrete failing and succeeding environments. -/
theorem C9_witness :
    obter_dados_brutos envFalhaOrcado ⟨none⟩ =
      ⟨.error (.queryError "FINANCA"), ⟨none⟩, [.fetchOrcado]⟩ ∧
    obter_dados_brutos envFalhaCC ⟨none⟩ =
      ⟨.error (.queryError "HubDados"), ⟨none⟩, [.fetchOrcado, .fetchCC]⟩ ∧
    (obter_dados_brutos envLive ⟨none⟩).events.take 2 =
      [.fetchOrcado, .fetchCC] ∧
    (obter_dados_brutos envLive ⟨none⟩).events.take 3 =
      [.fetchOrcado, .fetchCC, .openCacheConn] :=
  ⟨(C9_fetch_before_cache_write envFalhaOrcado).1 _ rfl,
   (C9_fetch_before_cache_write envFalhaCC).2.1 dOrc _ rfl rfl,
   (C9_fetch_before_cache_write envLive).2.2.1
     (by rw [cold_ok envLive dOrc dCC rfl rfl rfl rfl rfl]; simp),
   (C9_fetch_before_cache_write envLive).2.2.2 TABELA_ORCADO_CACHE
     (by rw [cold_ok envLive dOrc dCC rfl rfl rfl rfl rfl]; simp)⟩

/-- C10: in the cache-present path, a failure of `get_conexao` itself —
before any table read is attempted — already triggers the recovery: the
file is unlinked and the whole algorithm re-runs from the top. -/
theorem C10_conn_open_failure_recovers (env : Env) (file : CacheFile)
    (e : PyError)
    (hconn : get_conexao env.cacheConfig env.olapOpenOk = .error e) :
    obter_dados_brutos env ⟨some file⟩ =
      ⟨(obter_dados_brutos env ⟨none⟩).result,
       (obter_dados_brutos env ⟨none⟩).world,
       [.openCacheConn, .unlinkCache] ++ (obter_dados_brutos env ⟨none⟩).events⟩ ∧
    Event.unlinkCache ∈ (obter_dados_brutos env ⟨some file⟩).events ∧
    (∀ t, Event.readTable t ∉ (obter_dados_brutos env ⟨some file⟩).events) := by
  have h := conn_fail_recovery env file e hconn
  refine ⟨h, ?_, ?_⟩
  · rw [h]
    simp
  · intro t
    rw [h]
    simp [cold_no_read env t]

/-- Witness for C10: an unknown connection `tipo` makes `get_conexao` raise
`ValueError`, which alone triggers the purge-and-retry. -/
theorem C10_witness :
    obter_dados_brutos envConfigRuim ⟨some .corrupt⟩ =
      ⟨(obter_dados_brutos envConfigRuim ⟨none⟩).result,
       (obter_dados_brutos envConfigRuim ⟨none⟩).world,
       [.openCacheConn, .unlinkCache]
         ++ (obter_dados_brutos envConfigRuim ⟨none⟩).events⟩ ∧
    Event.unlinkCache ∈ (obter_dados_brutos envConfigRuim ⟨some .corrupt⟩).events ∧
    (∀ t, Event.readTable t ∉
       (obter_dados_brutos envConfigRuim ⟨some .corrupt⟩).events) :=
  C10_conn_open_failure_recovers envConfigRuim .corrupt (.valueError "txt") rfl

end PlanNatureza
